import Mathlib

/-!
Shallow embedding of `app.py`: a Flask service exposing `POST /predict`
(an Iris classifier behind a JSON API) and `GET /` (one static HTML page).

JSON values are modelled by `JVal`.  The Python runtime behaviours the
handler relies on (truthiness, `len`, `dict.get`, `float` coercion,
negative list indexing) are modelled explicitly, and every exception is an
`Except.error` carrying the exception message.  The classifier loaded from
`model.joblib` is opaque to the service, so it is modelled as an abstract
function from the coerced feature row to either an array of predicted
class indices or an exception raised during inference.  The wall clock
read by `int(time.time())` is passed to the handler as an integer
parameter `now`.
-/

/-- A JSON value as produced by Flask `request.get_json()`.  Numbers are
modelled as rationals; `float32` rounding is not observable to any
property below because the classifier is abstract. -/
inductive JVal where
  | null : JVal
  | bool : Bool → JVal
  | num : Rat → JVal
  | str : String → JVal
  | arr : List JVal → JVal
  | obj : List (String × JVal) → JVal
deriving Repr, Inhabited

/-- The Python type name of a JSON value, used in exception messages. -/
def pyType : JVal → String
  | .null => "NoneType"
  | .bool _ => "bool"
  | .num _ => "float"
  | .str _ => "str"
  | .arr _ => "list"
  | .obj _ => "dict"

/-- Python truthiness `bool(v)` of a JSON value: `None`, `False`, zero and
empty containers are falsy, everything else is truthy. -/
def truthy : JVal → Bool
  | .null => false
  | .bool b => b
  | .num q => !(q == 0)
  | .str s => !(s == "")
  | .arr xs => !xs.isEmpty
  | .obj kvs => !kvs.isEmpty

/-- Python `len(v)`: defined for sized values (strings, lists, dicts),
raises `TypeError` on anything else. -/
def pyLen : JVal → Except String Nat
  | .str s => .ok s.length
  | .arr xs => .ok xs.length
  | .obj kvs => .ok kvs.length
  | v => .error ("object of type " ++ pyType v ++ " has no len()")

/-- `data.get(key)`: succeeds on a dict, returning `None` when the key is
absent, and raises `AttributeError` on any non-dict value. -/
def dictGet (data : JVal) (key : String) : Except String JVal :=
  match data with
  | .obj kvs => .ok ((kvs.lookup key).getD .null)
  | v => .error (pyType v ++ " object has no attribute get")

/-- Numeric value of a run of decimal digits. -/
def digitsVal (cs : List Char) : Nat :=
  cs.foldl (fun a c => 10 * a + (c.toNat - 48)) 0

/-- Unsigned decimal literal: digits with at most one decimal point and at
least one digit.  Scientific notation, `inf` and `nan` are not modelled;
no claim depends on them. -/
def parseUnsigned (cs : List Char) : Option Rat :=
  match cs.span Char.isDigit with
  | (ds, []) => if ds.isEmpty then none else some (digitsVal ds)
  | (ds, c :: fs) =>
      if c == Char.ofNat 46 && fs.all Char.isDigit && !(ds.isEmpty && fs.isEmpty) then
        some ((digitsVal ds : Rat) + (digitsVal fs : Rat) / ((10 : Rat) ^ fs.length))
      else none

/-- Strip leading and trailing whitespace from a character list. -/
def trimChars (cs : List Char) : List Char :=
  ((cs.dropWhile Char.isWhitespace).reverse.dropWhile Char.isWhitespace).reverse

/-- Python `float(s)` on a string, approximately: optional surrounding
whitespace, optional sign, then an unsigned decimal literal. -/
def pyFloatOfString (s : String) : Option Rat :=
  match trimChars s.toList with
  | c :: rest =>
      if c == Char.ofNat 43 then parseUnsigned rest
      else if c == Char.ofNat 45 then (parseUnsigned rest).map Neg.neg
      else parseUnsigned (c :: rest)
  | [] => none

/-- Coercion of one element to `float32` inside
`np.array(..., dtype=np.float32)`: numbers and booleans coerce, numeric
strings are parsed, everything else raises `ValueError`/`TypeError`.
A nested numeric sequence would build a higher-rank array that the
classifier then rejects; both roads end in the same generic handler, so it
is modelled as a coercion failure. -/
def coerceFloat : JVal → Except String Rat
  | .num q => .ok q
  | .bool b => .ok (if b then 1 else 0)
  | .str s =>
      match pyFloatOfString s with
      | some q => .ok q
      | none => .error ("could not convert string to float: " ++ s)
  | v => .error ("float() argument must be a string or a real number, not " ++ pyType v)

/-- Elementwise coercion of a list of JSON values into a numeric row. -/
def coerceList : List JVal → Except String (List Rat)
  | [] => .ok []
  | v :: vs =>
      match coerceFloat v with
      | .error e => .error e
      | .ok q =>
          match coerceList vs with
          | .error e => .error e
          | .ok qs => .ok (q :: qs)

/-- `np.array([features], dtype=np.float32)`: the single row of the
`1 x n` input matrix built from the `features` value.  A list coerces
elementwise; any other value is wrapped as the sole element of the row. -/
def coerceRow : JVal → Except String (List Rat)
  | .arr xs => coerceList xs
  | v => (coerceFloat v).map (fun q => [q])

/-- The loaded classifier (`joblib.load('model.joblib')` - the artifact is
produced out of band and is opaque to the service): an abstract function
from the coerced feature row to either the array of predicted class
indices or an exception raised during inference. -/
abbrev Model : Type := List Rat → Except String (List Int)

/-- Python list indexing `labels[i]`: non-negative indices count from the
front, negative indices from the back, anything else raises `IndexError`. -/
def pyIndex (xs : List String) (i : Int) : Except String String :=
  if h : 0 ≤ i ∧ i < (xs.length : Int) then
    .ok (xs.get ⟨i.toNat, by omega⟩)
  else if h2 : -(xs.length : Int) ≤ i ∧ i < 0 then
    .ok (xs.get ⟨((xs.length : Int) + i).toNat, by omega⟩)
  else
    .error "list index out of range"

/-- `predictions[0]` on the index array returned by the classifier. -/
def firstPrediction : List Int → Except String Int
  | [] => .error "index 0 is out of bounds for axis 0 with size 0"
  | p :: _ => .ok p

/-- An HTTP response: status code and JSON (or HTML) body. -/
structure HttpResponse where
  status : Nat
  body : JVal
deriving Repr

/-- `MODEL_FILE`: the fixed path of the model artifact. -/
def MODEL_FILE : String := "model.joblib"

/-- `CLASS_LABELS`: the static label table for the Iris model. -/
def CLASS_LABELS : List String := ["Setosa", "Versicolor", "Virginica"]

/-- The 503 response issued when the model handle is unset. -/
def modelNotLoaded : HttpResponse :=
  ⟨503, .obj [("error", .str "Model not loaded on server.")]⟩

/-- The 400 response issued when the feature vector is missing or has the
wrong arity. -/
def invalidInput : HttpResponse :=
  ⟨400, .obj [("error", .str "Invalid input: features must be a list of 4 numerical values.")]⟩

/-- The 200 response for a successful prediction: success flag, raw class
index (after `int(...)`), resolved label, Unix timestamp in seconds. -/
def successResponse (prediction_index : Int) (predicted_label : String) (timestamp : Int) : HttpResponse :=
  ⟨200, .obj [("success", .bool true),
              ("prediction_index", .num (prediction_index : Rat)),
              ("predicted_label", .str predicted_label),
              ("timestamp", .num (timestamp : Rat))]⟩

/-- The 500 response issued by the generic `except Exception` handler,
embedding the exception message `e`. -/
def serverError (e : String) : HttpResponse :=
  ⟨500, .obj [("success", .bool false),
              ("error", .str ("Prediction failed due to server error: " ++ e))]⟩

/-- The `try` block of `predict`, statement by statement.  `body` is the
outcome of `request.get_json()` (either the parsed value or the parse
exception); each fallible step threads its exception; the two `return`
statements reached on an arity failure are `Except.ok` responses, so
`Except.error` here means exactly "an exception reached the generic
handler". -/
def predictTry (m : Model) (labels : List String) (body : Except String JVal) (now : Int) :
    Except String HttpResponse :=
  match body with
  | .error e => .error e
  | .ok data =>
      match dictGet data "features" with
      | .error e => .error e
      | .ok features =>
          if truthy features = false then
            .ok invalidInput
          else
            match pyLen features with
            | .error e => .error e
            | .ok n =>
                if n ≠ 4 then
                  .ok invalidInput
                else
                  match coerceRow features with
                  | .error e => .error e
                  | .ok row =>
                      match m row with
                      | .error e => .error e
                      | .ok preds =>
                          match firstPrediction preds with
                          | .error e => .error e
                          | .ok prediction_index =>
                              match pyIndex labels prediction_index with
                              | .error e => .error e
                              | .ok predicted_label =>
                                  .ok (successResponse prediction_index predicted_label now)

/-- `predict(request_body)`: the `POST /predict` handler.  The model handle
and the class-label table are the process-wide state the handler reads;
they are passed explicitly.  `if not ai_model` rejects an unset handle
before the `try` block; otherwise any `Except.error` escaping the block is
turned into the generic 500 response. -/
def predict (ai_model : Option Model) (labels : List String) (body : Except String JVal) (now : Int) :
    HttpResponse :=
  match ai_model with
  | none => modelNotLoaded
  | some m =>
      match predictTry m labels body now with
      | .ok resp => resp
      | .error e => serverError e

/-- The static HTML document served by `index()`.  The template contains
no Jinja constructs, so `render_template_string` returns it verbatim;
braces, apostrophes, backticks, dollar and hash signs are written as
escape codes. -/
def html_content : String := "\n<!DOCTYPE html>\n<html lang=\"en\">\n<head>\n    <meta charset=\"UTF-8\">\n    <meta name=\"viewport\" content=\"width=device-width, initial-scale=1.0\">\n    <title>Model Deployment Demo (Iris)</title>\n    <script src=\"https://cdn.tailwindcss.com\"></script>\n    <style>\n        body \x7b font-family: \x27Inter\x27, sans-serif; background-color: \x23f7f7f7; \x7d\n        .card \x7b box-shadow: 0 10px 25px -5px rgba(0, 0, 0, 0.1), 0 0px 10px -5px rgba(0, 0, 0, 0.04); \x7d\n        input[type=\"number\"]:focus \x7b border-color: \x233b82f6; box-shadow: 0 0 0 3px rgba(59, 130, 246, 0.5); \x7d\n    </style>\n</head>\n<body class=\"min-h-screen flex items-center justify-center p-4\">\n\n    <div class=\"card w-full max-w-lg bg-white p-8 rounded-xl\">\n        <h1 class=\"text-3xl font-extrabold text-gray-900 mb-6 text-center\">Iris Flower Classifier</h1>\n        <p class=\"text-gray-600 mb-8 text-center\">\n            Enter the four measurements below to predict the species (Setosa, Versicolor, or Virginica) using the backend model API.\n        </p>\n\n        <div id=\"loading-spinner\" class=\"hidden text-center text-blue-500 mb-4\">\n            <svg class=\"animate-spin h-6 w-6 mx-auto\" xmlns=\"http://www.w3.org/2000/svg\" fill=\"none\" viewBox=\"0 0 24 24\">\n                <circle class=\"opacity-25\" cx=\"12\" cy=\"12\" r=\"10\" stroke=\"currentColor\" stroke-width=\"4\"></circle>\n                <path class=\"opacity-75\" fill=\"currentColor\" d=\"M4 12a8 8 0 018-8V0C5.373 0 0 5.373 0 12h4zm2 5.291A7.962 7.962 0 014 12H0c0 3.042 1.135 5.824 3 7.938l3-2.647z\"></path>\n            </svg>\n            <p class=\"mt-2 text-sm\">Predicting...</p>\n        </div>\n\n        <form id=\"predictionForm\" class=\"space-y-4\">\n            <!-- Input Fields -->\n            <div class=\"grid grid-cols-2 gap-4\">\n                <div>\n                    <label for=\"sepal_length\" class=\"block text-sm font-medium text-gray-700\">Sepal Length (cm)</label>\n                    <input type=\"number\" step=\"0.1\" id=\"sepal_length\" value=\"5.1\" required class=\"mt-1 block w-full rounded-md border-gray-300 shadow-sm p-3 border\">\n                </div>\n                <div>\n                    <label for=\"sepal_width\" class=\"block text-sm font-medium text-gray-700\">Sepal Width (cm)</label>\n                    <input type=\"number\" step=\"0.1\" id=\"sepal_width\" value=\"3.5\" required class=\"mt-1 block w-full rounded-md border-gray-300 shadow-sm p-3 border\">\n                </div>\n                <div>\n                    <label for=\"petal_length\" class=\"block text-sm font-medium text-gray-700\">Petal Length (cm)</label>\n                    <input type=\"number\" step=\"0.1\" id=\"petal_length\" value=\"1.4\" required class=\"mt-1 block w-full rounded-md border-gray-300 shadow-sm p-3 border\">\n                </div>\n                <div>\n                    <label for=\"petal_width\" class=\"block text-sm font-medium text-gray-700\">Petal Width (cm)</label>\n                    <input type=\"number\" step=\"0.1\" id=\"petal_width\" value=\"0.2\" required class=\"mt-1 block w-full rounded-md border-gray-300 shadow-sm p-3 border\">\n                </div>\n            </div>\n\n            <button type=\"submit\" id=\"submitButton\" class=\"w-full py-3 px-4 border border-transparent rounded-md shadow-lg text-sm font-medium text-white bg-blue-600 hover:bg-blue-700 focus:outline-none focus:ring-2 focus:ring-offset-2 focus:ring-blue-500 transition duration-150 ease-in-out\">\n                Get Prediction\n            </button>\n        </form>\n\n        <!-- Output Display -->\n        <div id=\"resultContainer\" class=\"mt-8 pt-6 border-t border-gray-200\">\n            <h2 class=\"text-xl font-semibold text-gray-800 mb-3\">Model Result:</h2>\n            <div id=\"predictionOutput\" class=\"text-lg font-bold text-gray-900 bg-gray-50 p-4 rounded-lg border border-gray-100\">\n                Awaiting input...\n            </div>\n            <div id=\"errorOutput\" class=\"text-sm text-red-600 mt-2 hidden\"></div>\n        </div>\n    </div>\n\n    <!-- The critical JavaScript section that handles API communication -->\n    <script>\n        document.getElementById(\x27predictionForm\x27).addEventListener(\x27submit\x27, async function(e) \x7b\n            e.preventDefault();\n            \n            // Get elements\n            const form = e.target;\n            const submitButton = document.getElementById(\x27submitButton\x27);\n            const loadingSpinner = document.getElementById(\x27loading-spinner\x27);\n            const predictionOutput = document.getElementById(\x27predictionOutput\x27);\n            const errorOutput = document.getElementById(\x27errorOutput\x27);\n\n            // 1. Gather input data\n            const features = [\n                parseFloat(form.sepal_length.value),\n                parseFloat(form.sepal_width.value),\n                parseFloat(form.petal_length.value),\n                parseFloat(form.petal_width.value)\n            ];\n\n            // 2. Prepare UI for request\n            submitButton.disabled = true;\n            submitButton.textContent = \"Processing...\";\n            loadingSpinner.classList.remove(\x27hidden\x27);\n            predictionOutput.textContent = \"Sending data to model...\";\n            errorOutput.classList.add(\x27hidden\x27);\n\n            try \x7b\n                // 3. Send data to the Flask API endpoint using fetch\n                // IMPORTANT: Since the Flask app serves the page, the API path is relative.\n                const response = await fetch(\x27/predict\x27, \x7b\n                    method: \x27POST\x27,\n                    headers: \x7b\n                        \x27Content-Type\x27: \x27application/json\x27\n                    \x7d,\n                    body: JSON.stringify(\x7b features: features \x7d)\n                \x7d);\n\n                // 4. Handle HTTP errors\n                if (!response.ok) \x7b\n                    const errorJson = await response.json();\n                    throw new Error(errorJson.error || \x60HTTP error! Status: \x24\x7bresponse.status\x7d\x60);\n                \x7d\n\n                // 5. Process successful response\n                const result = await response.json();\n                \n                if (result.success) \x7b\n                    // Update the prediction display\n                    predictionOutput.classList.remove(\x27text-red-600\x27);\n                    predictionOutput.classList.add(\x27text-green-600\x27);\n                    predictionOutput.innerHTML = \x60\n                        <span class=\"text-2xl\">\x24\x7bresult.predicted_label\x7d</span> \n                        <span class=\"text-gray-500 text-sm\">(Class Index: \x24\x7bresult.prediction_index\x7d)</span>\n                    \x60;\n                \x7d else \x7b\n                    // Handle API internal error structure\n                    throw new Error(result.error || \x27An unknown error occurred in the API.\x27);\n                \x7d\n\n            \x7d catch (error) \x7b\n                // 6. Handle network or parsing errors\n                console.error(\"Fetch error:\", error);\n                predictionOutput.classList.remove(\x27text-green-600\x27);\n                predictionOutput.classList.add(\x27text-red-600\x27);\n                predictionOutput.textContent = \"Prediction Failed\";\n                errorOutput.textContent = \x60Error: \x24\x7berror.message\x7d\x60;\n                errorOutput.classList.remove(\x27hidden\x27);\n            \x7d finally \x7b\n                // 7. Reset UI state\n                submitButton.disabled = false;\n                submitButton.textContent = \"Get Prediction\";\n                loadingSpinner.classList.add(\x27hidden\x27);\n            \x7d\n        \x7d);\n    </script>\n\n</body>\n</html>\n    "

/-- `index()`: serves the main HTML page (status 200, the template as the
body). -/
def index_page : HttpResponse := ⟨200, .str html_content⟩

/-- Process-wide state: the model handle (written at startup) and the
class-label table. -/
structure ProcState where
  ai_model : Option Model
  class_labels : List String

/-- Startup: the module-level `try/except` around the existence check and
`joblib.load`.  The two are collapsed into the abstract outcome
`loadResult`: on success the handle is set to the loaded model, on any
exception it is set to `None` and the process keeps running. -/
def startup (loadResult : Except String Model) : ProcState :=
  match loadResult with
  | .ok m => ⟨some m, CLASS_LABELS⟩
  | .error _ => ⟨none, CLASS_LABELS⟩

/-- An inbound HTTP request to one of the two routes: `GET /`, or
`POST /predict` carrying the outcome of body parsing and the current
time. -/
inductive Request where
  | getIndex : Request
  | postPredict : Except String JVal → Int → Request

/-- Dispatch one request against the process state, returning the response
together with the state afterwards.  Neither handler assigns to any
process-wide name, so both return the state they were given. -/
def handleRequest (s : ProcState) : Request → HttpResponse × ProcState
  | .getIndex => (index_page, s)
  | .postPredict body now => (predict s.ai_model s.class_labels body now, s)

/-- The process state after serving a sequence of requests. -/
def runRequests (s : ProcState) : List Request → ProcState
  | [] => s
  | r :: rs => runRequests (handleRequest s r).2 rs

/-! ## Theorems -/

/-- Evaluation of the handler on a well-formed body with four numeric
features: everything up to the model call is deterministic, so the
response is a function of the classifier's output on the coerced row. -/
theorem predict_features_eval (m : Model) (q1 q2 q3 q4 : Rat) (now : Int) :
    predict (some m) CLASS_LABELS
      (.ok (.obj [("features", .arr [.num q1, .num q2, .num q3, .num q4])])) now
      = match m [q1, q2, q3, q4] with
        | .error e => serverError e
        | .ok preds =>
            match firstPrediction preds with
            | .error e => serverError e
            | .ok idx =>
                match pyIndex CLASS_LABELS idx with
                | .error e => serverError e
                | .ok lbl => successResponse idx lbl now := by
  have h1 : predict (some m) CLASS_LABELS
      (.ok (.obj [("features", .arr [.num q1, .num q2, .num q3, .num q4])])) now
      = (match (match m [q1, q2, q3, q4] with
                | .error e => Except.error e
                | .ok preds =>
                    match firstPrediction preds with
                    | .error e => Except.error e
                    | .ok idx =>
                        match pyIndex CLASS_LABELS idx with
                        | .error e => Except.error e
                        | .ok lbl => Except.ok (successResponse idx lbl now)) with
         | .ok resp => resp
         | .error e => serverError e) := rfl
  rw [h1]
  cases m [q1, q2, q3, q4] with
  | error e => rfl
  | ok preds =>
      cases preds with
      | nil => rfl
      | cons p ps =>
          cases h : pyIndex CLASS_LABELS p with
          | error e => simp only [firstPrediction, h]
          | ok lbl => simp only [firstPrediction, h]

/-- C1: with the model handle set, a body whose `features` is a list of
exactly 4 numbers, and a predicted class index that is a valid index into
the 3-entry label table, the handler returns 200 with `success: true`,
`prediction_index` the raw output as an integer, `predicted_label` the
table entry at that index, and `timestamp` the current Unix seconds. -/
theorem predict_valid_features_success (m : Model) (q1 q2 q3 q4 : Rat) (i : Int)
    (rest : List Int) (now : Int)
    (hm : m [q1, q2, q3, q4] = .ok (i :: rest)) (h0 : 0 ≤ i) (h3 : i < 3) :
    predict (some m) CLASS_LABELS
      (.ok (.obj [("features", .arr [.num q1, .num q2, .num q3, .num q4])])) now
      = ⟨200, .obj [("success", .bool true),
                    ("prediction_index", .num (i : Rat)),
                    ("predicted_label", .str (CLASS_LABELS.getD i.toNat "")),
                    ("timestamp", .num (now : Rat))]⟩ := by
  rw [predict_features_eval, hm]
  have hcase : i = 0 ∨ i = 1 ∨ i = 2 := by omega
  rcases hcase with rfl | rfl | rfl <;> rfl

/-- C1 witness: a concrete model emitting class 2 on `[1,2,3,4]`. -/
theorem predict_valid_features_success_witness :
    predict (some (fun _ => Except.ok [2])) CLASS_LABELS
      (.ok (.obj [("features", .arr [.num 1, .num 2, .num 3, .num 4])])) 100
      = ⟨200, .obj [("success", .bool true),
                    ("prediction_index", .num ((2 : Int) : Rat)),
                    ("predicted_label", .str (CLASS_LABELS.getD (2 : Int).toNat "")),
                    ("timestamp", .num ((100 : Int) : Rat))]⟩ :=
  predict_valid_features_success (fun _ => Except.ok [2]) 1 2 3 4 2 [] 100 rfl
    (by decide) (by decide)

/-- C2: a class index at or beyond the label-table length (3) makes the
label lookup fail with an out-of-range error, which no dedicated code
path handles - it falls through to the generic 500 handler; the boundary
index 2 (last valid entry) succeeds with label Virginica. -/
theorem label_table_bounds (m mB : Model) (q1 q2 q3 q4 : Rat) (i : Int)
    (rest restB : List Int) (now : Int)
    (hm : m [q1, q2, q3, q4] = .ok (i :: rest)) (hi : (3 : Int) ≤ i)
    (hmB : mB [q1, q2, q3, q4] = .ok (2 :: restB)) :
    pyIndex CLASS_LABELS i = .error "list index out of range" ∧
    predict (some m) CLASS_LABELS
      (.ok (.obj [("features", .arr [.num q1, .num q2, .num q3, .num q4])])) now
      = serverError "list index out of range" ∧
    predict (some mB) CLASS_LABELS
      (.ok (.obj [("features", .arr [.num q1, .num q2, .num q3, .num q4])])) now
      = successResponse 2 "Virginica" now := by
  have hlen : ((CLASS_LABELS.length : Nat) : Int) = 3 := rfl
  have hpy : pyIndex CLASS_LABELS i = .error "list index out of range" := by
    unfold pyIndex
    rw [dif_neg (by omega), dif_neg (by omega)]
  refine ⟨hpy, ?_, ?_⟩
  · rw [predict_features_eval, hm]
    simp only [firstPrediction, hpy]
  · rw [predict_features_eval, hmB]
    rfl

/-- C2 witness: a model emitting class 3 hits the out-of-range path, one
emitting class 2 succeeds. -/
theorem label_table_bounds_witness :
    pyIndex CLASS_LABELS 3 = .error "list index out of range" ∧
    predict (some (fun _ => Except.ok [3])) CLASS_LABELS
      (.ok (.obj [("features", .arr [.num 1, .num 2, .num 3, .num 4])])) 7
      = serverError "list index out of range" ∧
    predict (some (fun _ => Except.ok [2])) CLASS_LABELS
      (.ok (.obj [("features", .arr [.num 1, .num 2, .num 3, .num 4])])) 7
      = successResponse 2 "Virginica" 7 :=
  label_table_bounds (fun _ => Except.ok [3]) (fun _ => Except.ok [2]) 1 2 3 4 3 [] [] 7
    rfl (by decide) rfl

/-- C3 counterexample: a body whose `features` is a list of exactly 4
non-numeric strings is "not a list of exactly 4 numeric values", yet the
handler answers 500 (generic server error), not the claimed 400. -/
theorem nonnumeric_features_not_client_error :
    (predict (some (fun _ => Except.ok [0])) CLASS_LABELS
      (.ok (.obj [("features", .arr [.str "a", .str "b", .str "c", .str "d"])])) 0).status ≠ 400 ∧
    (predict (some (fun _ => Except.ok [0])) CLASS_LABELS
      (.ok (.obj [("features", .arr [.str "a", .str "b", .str "c", .str "d"])])) 0).status = 500 :=
  ⟨by decide, rfl⟩

/-- C3 amended: for a body parsing to a JSON object whose `features` entry
is missing or falsy, or is a sized value whose length is not 4, the
handler answers 400 and the model is never invoked (the response is the
same for every loaded model).  Element types are not validated: a truthy
length-4 `features` passes this check even when its elements are not
numbers. -/
theorem invalid_features_client_error (m : Model) (kvs : List (String × JVal)) (now : Int)
    (h : truthy ((kvs.lookup "features").getD .null) = false
         ∨ ∃ n, pyLen ((kvs.lookup "features").getD .null) = .ok n ∧ n ≠ 4) :
    predict (some m) CLASS_LABELS (.ok (.obj kvs)) now = invalidInput ∧
    invalidInput.status = 400 := by
  refine ⟨?_, rfl⟩
  have hdg : dictGet (.obj kvs) "features" = .ok ((kvs.lookup "features").getD .null) := rfl
  have hTry : predictTry m CLASS_LABELS (.ok (.obj kvs)) now = .ok invalidInput := by
    by_cases htru : truthy ((kvs.lookup "features").getD .null) = false
    · simp only [predictTry, hdg, htru, if_pos]
    · have htru' : truthy ((kvs.lookup "features").getD .null) = true := by
        revert htru; cases truthy ((kvs.lookup "features").getD .null) <;> simp
      rcases h with hcon | ⟨n, hlen, hn⟩
      · exact absurd hcon htru
      · simp only [predictTry, hdg, htru', hlen]
        rw [if_neg (by simp), if_pos hn]
  simp only [predict, hTry]

/-- C3 amended witness: `features` of length 2 is rejected with 400, for a
model whose invocation would instead produce class 0. -/
theorem invalid_features_client_error_witness :
    predict (some (fun _ => Except.ok [0])) CLASS_LABELS
      (.ok (.obj [("features", .arr [.num 1, .num 2])])) 5 = invalidInput ∧
    invalidInput.status = 400 :=
  invalid_features_client_error (fun _ => Except.ok [0])
    [("features", .arr [.num 1, .num 2])] 5
    (Or.inr ⟨2, rfl, by decide⟩)

/-- C4: with the model handle unset, every request - whatever the outcome
of body parsing would have been, including a parse failure - gets the
fixed 503 unavailable response; nothing else is evaluated. -/
theorem predict_model_unset_unavailable (labels : List String)
    (body : Except String JVal) (now : Int) :
    predict none labels body now = modelNotLoaded ∧ modelNotLoaded.status = 503 :=
  ⟨rfl, rfl⟩

/-- C5: any exception escaping the try block - body parsing, coercion,
inference or label lookup, i.e. anything other than the 503/400
precondition returns - is caught generically and reported as a 500 JSON
body with `success: false` and the exception message embedded in the
error string. -/
theorem generic_exception_server_error (m : Model) (labels : List String)
    (body : Except String JVal) (now : Int) (e : String)
    (h : predictTry m labels body now = .error e) :
    predict (some m) labels body now
      = ⟨500, .obj [("success", .bool false),
                    ("error", .str ("Prediction failed due to server error: " ++ e))]⟩ := by
  simp only [predict, h, serverError]

/-- C5 witness: an inference exception with message "boom" surfaces in the
500 response. -/
theorem generic_exception_server_error_witness :
    predict (some (fun _ => Except.error "boom")) CLASS_LABELS
      (.ok (.obj [("features", .arr [.num 1, .num 2, .num 3, .num 4])])) 7
      = ⟨500, .obj [("success", .bool false),
                    ("error", .str ("Prediction failed due to server error: " ++ "boom"))]⟩ :=
  generic_exception_server_error (fun _ => Except.error "boom") CLASS_LABELS
    (.ok (.obj [("features", .arr [.num 1, .num 2, .num 3, .num 4])])) 7 "boom" rfl

/-- A response returned normally from the try block has status 200 or 400:
the only `return` statements inside it are the arity rejection and the
success response. -/
theorem predictTry_ok_status (m : Model) (labels : List String)
    (body : Except String JVal) (now : Int) (r : HttpResponse)
    (h : predictTry m labels body now = .ok r) :
    r.status = 200 ∨ r.status = 400 := by
  unfold predictTry at h
  repeat' split at h
  all_goals try (injection h)
  all_goals (subst r; simp [invalidInput, successResponse])

/-- C6: no failure escapes the handler: for every model state, body-parse
outcome and classifier behaviour, `predict` is a total function returning
one response, whose status is one of 200, 400, 500, 503. -/
theorem predict_total_response (ai_model : Option Model) (labels : List String)
    (body : Except String JVal) (now : Int) :
    (predict ai_model labels body now).status = 200 ∨
    (predict ai_model labels body now).status = 400 ∨
    (predict ai_model labels body now).status = 500 ∨
    (predict ai_model labels body now).status = 503 := by
  cases ai_model with
  | none => simp [predict, modelNotLoaded]
  | some m =>
      cases h : predictTry m labels body now with
      | error e => simp [predict, h, serverError]
      | ok r =>
          have hs := predictTry_ok_status m labels body now r h
          simp only [predict, h]
          tauto

/-- The state after serving any request sequence is the state served to
the first request: no handler writes to process-wide state. -/
theorem runRequests_fix (s : ProcState) (l : List Request) : runRequests s l = s := by
  induction l generalizing s with
  | nil => rfl
  | cons r rs ih =>
      have h2 : (handleRequest s r).2 = s := by cases r <;> rfl
      simp only [runRequests, h2]
      exact ih s

/-- C7: the handlers have no side effect on process-wide state: the model
handle and the class-label table after any call are the ones before it,
and after startup - the only write - the state stays the startup state
across any sequence of requests. -/
theorem handlers_preserve_state (s : ProcState) (req : Request)
    (loadResult : Except String Model) (reqs : List Request) :
    (handleRequest s req).2 = s ∧
    runRequests (startup loadResult) reqs = startup loadResult :=
  ⟨by cases req <;> rfl, runRequests_fix _ _⟩

/-- C8: `GET /` is deterministic and idempotent: from any two process
states the index handler returns the same byte-identical document, and
the state is unchanged by serving it. -/
theorem index_deterministic_idempotent (s t : ProcState) :
    (handleRequest s Request.getIndex).1 = (handleRequest t Request.getIndex).1 ∧
    (handleRequest s Request.getIndex).2 = s ∧
    (handleRequest s Request.getIndex).1 = index_page :=
  ⟨rfl, rfl, rfl⟩

/-- C9: a negative class index in \x7b-1, -2, -3\x7d does not fail: Python
indexing wraps around, so the handler returns 200 with `success: true`,
the negative `prediction_index`, and the label counted from the end of
the table; in particular index -1 resolves to Virginica. -/
theorem negative_index_wraps (m : Model) (q1 q2 q3 q4 : Rat) (i : Int)
    (rest : List Int) (now : Int)
    (hm : m [q1, q2, q3, q4] = .ok (i :: rest)) (hlo : (-3 : Int) ≤ i) (hhi : i < 0) :
    predict (some m) CLASS_LABELS
      (.ok (.obj [("features", .arr [.num q1, .num q2, .num q3, .num q4])])) now
      = ⟨200, .obj [("success", .bool true),
                    ("prediction_index", .num (i : Rat)),
                    ("predicted_label", .str (CLASS_LABELS.getD (3 + i).toNat "")),
                    ("timestamp", .num (now : Rat))]⟩ ∧
    pyIndex CLASS_LABELS (-1) = .ok "Virginica" := by
  refine ⟨?_, rfl⟩
  rw [predict_features_eval, hm]
  have hcase : i = -3 ∨ i = -2 ∨ i = -1 := by omega
  rcases hcase with rfl | rfl | rfl <;> rfl

/-- C9 witness: a model emitting class -1 on `[1,2,3,4]` yields a 200
response labelled Virginica. -/
theorem negative_index_wraps_witness :
    predict (some (fun _ => Except.ok [-1])) CLASS_LABELS
      (.ok (.obj [("features", .arr [.num 1, .num 2, .num 3, .num 4])])) 9
      = ⟨200, .obj [("success", .bool true),
                    ("prediction_index", .num ((-1 : Int) : Rat)),
                    ("predicted_label", .str (CLASS_LABELS.getD (3 + (-1 : Int)).toNat "")),
                    ("timestamp", .num ((9 : Int) : Rat))]⟩ ∧
    pyIndex CLASS_LABELS (-1) = .ok "Virginica" :=
  negative_index_wraps (fun _ => Except.ok [-1]) 1 2 3 4 (-1) [] 9 rfl
    (by decide) (by decide)

/-- C10: the input check tests only presence, truthiness and arity, never
element type: a truthy `features` whose length is 4 but whose elements do
not coerce to floats passes validation and fails during coercion, so the
response is the generic 500 server error - independent of the model,
which is never invoked - rather than the 400 client error. -/
theorem validation_shape_only (m : Model) (features : JVal) (now : Int) (e : String)
    (htru : truthy features = true) (hlen : pyLen features = .ok 4)
    (hco : coerceRow features = .error e) :
    predict (some m) CLASS_LABELS (.ok (.obj [("features", features)])) now
      = serverError e ∧
    (serverError e).status = 500 ∧ (serverError e).status ≠ 400 := by
  refine ⟨?_, rfl, by simp [serverError]⟩
  have hdg : dictGet (.obj [("features", features)]) "features" = .ok features := rfl
  have hTry : predictTry m CLASS_LABELS (.ok (.obj [("features", features)])) now
      = .error e := by
    simp only [predictTry, hdg, htru, hlen, hco]
    rw [if_neg (by simp)]
    simp
  simp only [predict, hTry]

/-- C10 witness: four non-numeric strings pass the shape check and produce
the 500 coercion failure. -/
theorem validation_shape_only_witness :
    predict (some (fun _ => Except.ok [0])) CLASS_LABELS
      (.ok (.obj [("features", .arr [.str "a", .str "b", .str "c", .str "d"])])) 0
      = serverError "could not convert string to float: a" ∧
    (serverError "could not convert string to float: a").status = 500 ∧
    (serverError "could not convert string to float: a").status ≠ 400 :=
  validation_shape_only (fun _ => Except.ok [0])
    (.arr [.str "a", .str "b", .str "c", .str "d"]) 0
    "could not convert string to float: a" rfl rfl rfl
